import Mathlib

/-!
Verification development for a small Django book-catalog application
(`bookapp`). The shallow embedding below translates, from the source:

* `bookapp/forms.py` — `BookForm` field validation, the custom title
  error messages, and the cross-field `clean` method;
* `bookapp/views.py` — the `book_list` query builder (title filter,
  order-by whitelist), the `stats` aggregation view, and the access
  mixins declared on the class-based views;
* `bookapp/urls.py` — the route table.

Dates are embedded as integers (ordinal day numbers): only their order
matters to the program. Model-level field constraints (`models.py` is
not part of the sources at hand) are modelled from the spec where
needed; each such definition says so in its doc comment.
-/

namespace BookApp

/-- A persisted Book record (fields relevant to validation, listing and
statistics; `cover_image` and `authors` carry no constraints and play no
role in any of the logic embedded here, so they are omitted). -/
structure Book where
  title : String
  pages : Int
  rating : Option Int
  status : String
  published_date : Int
  read_date : Option Int
deriving DecidableEq, Repr

/-! ## Input form (`bookapp/forms.py`, `BookForm`)

The embedding works at the typed layer: field values have already been
coerced from the raw HTTP strings, and a missing submission value is
`none`. `BookForm` is a `ModelForm` over all fields, so field-level
rules come from the model's declared constraints, and the form adds the
custom title messages plus the cross-field `clean` check. -/

/-- A candidate form submission (post-coercion, pre-validation). -/
structure BookFormData where
  title : String
  pages : Option Int
  rating : Option Int
  status : Option String
  published_date : Option Int
  read_date : Option Int
deriving DecidableEq, Repr

/-- Title field rules. Modelled from the spec: `models.py` is absent;
the spec fixes `title` as required with max length 50. The two message
texts are the `error_messages` overrides written in `BookForm.Meta`
(`forms.py`): the `required` check fires first, then `max_length`. -/
def titleErrors (t : String) : List String :=
  if t.length = 0 then ["The title is mandatory"]
  else if 50 < t.length then ["The title must be less than 50 characters long"]
  else []

/-- Pages field rules. Modelled from the spec: `models.py` is absent;
the spec fixes `pages` as a required integer that must be at least 1.
Message texts are the framework defaults. -/
def pagesErrors : Option Int → List String
  | none => ["This field is required."]
  | some p =>
      if p < 1 then ["Ensure this value is greater than or equal to 1."] else []

/-- Rating field rules. Modelled from the spec: `models.py` is absent;
the spec fixes `rating` as an optional integer in [1, 5]. -/
def ratingErrors : Option Int → List String
  | none => []
  | some r =>
      (if r < 1 then ["Ensure this value is greater than or equal to 1."] else [])
        ++ (if 5 < r then ["Ensure this value is less than or equal to 5."] else [])

/-- Status field rule. Modelled from the spec: `models.py` is absent;
the spec fixes `status` as a required enumerated code. A supplied value
is assumed to be one of the valid choices (choice membership is not
exercised by any claim). -/
def statusErrors : Option String → List String
  | none => ["This field is required."]
  | some _ => []

/-- Published-date field rule. Modelled from the spec: `models.py` is
absent; the spec fixes `published_date` as a required date. -/
def pubDateErrors : Option Int → List String
  | none => ["This field is required."]
  | some _ => []

/-- Read-date field rule: the field itself is optional and
unconstrained at field level (the cross-field comparison lives in
`BookForm.clean`). -/
def readDateErrors : Option Int → List String
  | _ => []

/-- Django's `_clean_fields` pass: every field is cleaned independently
and each failing field contributes its message list to the error
mapping. Fields with no failure do not appear. -/
def fieldErrors (d : BookFormData) : List (String × List String) :=
  ([("title", titleErrors d.title),
    ("pages", pagesErrors d.pages),
    ("rating", ratingErrors d.rating),
    ("status", statusErrors d.status),
    ("published_date", pubDateErrors d.published_date),
    ("read_date", readDateErrors d.read_date)]).filter (fun p => p.2 ≠ [])

/-- `cleaned_data` after the field pass: a field's value is present
exactly when the field was supplied and passed its own checks. -/
structure CleanedData where
  title : Option String
  pages : Option Int
  rating : Option Int
  status : Option String
  published_date : Option Int
  read_date : Option Int
deriving DecidableEq, Repr

/-- The `cleaned_data` mapping produced by the field pass. -/
def cleanedData (d : BookFormData) : CleanedData where
  title := if titleErrors d.title = [] then some d.title else none
  pages := if pagesErrors d.pages = [] then d.pages else none
  rating := if ratingErrors d.rating = [] then d.rating else none
  status := if statusErrors d.status = [] then d.status else none
  published_date := if pubDateErrors d.published_date = [] then d.published_date else none
  read_date := if readDateErrors d.read_date = [] then d.read_date else none

/-- Django's `Form.add_error(field, msg)`: append `msg` to the field's
message list, creating the entry when the field has no errors yet. -/
def addError (errs : List (String × List String)) (field msg : String) :
    List (String × List String) :=
  if errs.any (fun p => p.1 = field) then
    errs.map (fun p => if p.1 = field then (p.1, p.2 ++ [msg]) else p)
  else errs ++ [(field, [msg])]

/-- The message attached by `BookForm.clean` (`forms.py`). -/
def crossMsg : String := "The read date must be after the published date"

/-- `BookForm.clean` (`forms.py`): read `read_date` and
`published_date` out of `cleaned_data`; when both are present and
`read_date < published_date`, attach `crossMsg` to `read_date`. -/
def formClean (d : BookFormData) (errs : List (String × List String)) :
    List (String × List String) :=
  match (cleanedData d).read_date, (cleanedData d).published_date with
  | some r, some p => if r < p then addError errs "read_date" crossMsg else errs
  | _, _ => errs

/-- The full validation pass (`full_clean`): field cleaning followed by
the form-wide `clean`, yielding the field → messages error mapping. -/
def formErrors (d : BookFormData) : List (String × List String) :=
  formClean d (fieldErrors d)

/-- `form.is_valid()`: no field has errors. -/
def is_valid (d : BookFormData) : Bool := formErrors d = []

/-! ## List query builder (`bookapp/views.py`, `book_list`) -/

/-- The query parameters `book_list` reads from `request.GET`: `title`
and `order_by`; `none` models an absent parameter. -/
structure ListRequest where
  title : Option String
  order_by : Option String
deriving DecidableEq, Repr

/-- The rendering context `book_list` produces (pagination is an
external collaborator and the page parameter only slices this list, so
the context carries the full ordered, filtered record sequence). -/
structure ListContext where
  books : List Book
  title_filter : String
  order_by : String
deriving DecidableEq, Repr

/-- The `VALID_ORDER_FIELDS` whitelist literal from `book_list`. -/
def VALID_ORDER_FIELDS : List String :=
  ["title", "pages", "rating", "status", "published_date",
   "-title", "-pages", "-rating", "-status", "-published_date"]

/-- Lower-cased character sequence of a string (Python `str.lower`). -/
def lowerChars (s : String) : List Char := s.data.map Char.toLower

/-- Django's `title__icontains=needle`: case-insensitive substring
containment. -/
def icontains (hay needle : String) : Bool :=
  decide (lowerChars needle <:+: lowerChars hay)

/-- The filtering step of `book_list`: Python's `if title_filter:`
applies the `icontains` filter exactly when the filter string is
non-empty. -/
def applyTitleFilter (f : String) (s : List Book) : List Book :=
  if f ≠ "" then s.filter (fun b => icontains b.title f) else s

/-- SQL `ORDER BY` comparison on a nullable integer column: `NULL`
sorts first in ascending order. -/
def optIntLe : Option Int → Option Int → Bool
  | none, _ => true
  | some _, none => false
  | some a, some b => a ≤ b

/-- The row comparison induced by one whitelisted `order_by` key; a
leading `-` is the descending variant. The catch-all branch is
unreachable after sanitization (kept total on `String`). -/
def keyLe (key : String) (a b : Book) : Bool :=
  if key = "title" then a.title ≤ b.title
  else if key = "-title" then b.title ≤ a.title
  else if key = "pages" then a.pages ≤ b.pages
  else if key = "-pages" then b.pages ≤ a.pages
  else if key = "rating" then optIntLe a.rating b.rating
  else if key = "-rating" then optIntLe b.rating a.rating
  else if key = "status" then a.status ≤ b.status
  else if key = "-status" then b.status ≤ a.status
  else if key = "published_date" then a.published_date ≤ b.published_date
  else if key = "-published_date" then b.published_date ≤ a.published_date
  else a.title ≤ b.title

/-- `queryset.order_by(key)`: sort the rows by the key's comparison. -/
def applyOrder (key : String) (l : List Book) : List Book :=
  @List.insertionSort Book (fun a b => keyLe key a b = true)
    (fun a b => instDecidableEqBool (keyLe key a b) true) l

/-- The `book_list` view body: read the parameters with their defaults,
sanitize `order_by` against the whitelist, filter, order, and build the
context (`views.py` lines 42–67). -/
def book_list (s : List Book) (req : ListRequest) : ListContext :=
  let title_filter := req.title.getD ""
  let order_by0 := req.order_by.getD "title"
  let order_by := if order_by0 ∈ VALID_ORDER_FIELDS then order_by0 else "title"
  { books := applyOrder order_by (applyTitleFilter title_filter s)
  , title_filter := title_filter
  , order_by := order_by }

/-! ## Statistics view (`bookapp/views.py`, `stats`) -/

/-- Round an integer-scaled value half-to-even (the rounding Python's
`round` documents), applied at two decimal places by `round2`. -/
def roundHalfEven (q : ℚ) : ℤ :=
  if q - ⌊q⌋ < 1/2 then ⌊q⌋
  else if 1/2 < q - ⌊q⌋ then ⌊q⌋ + 1
  else if ⌊q⌋ % 2 = 0 then ⌊q⌋ else ⌊q⌋ + 1

/-- Python's `round(x, 2)`. -/
def round2 (q : ℚ) : ℚ := (roundHalfEven (q * 100) : ℚ) / 100

/-- SQL `AVG` over a column's non-`NULL` values: `NULL` (here `none`)
when there are no values, otherwise their mean. -/
def djangoAvg (vs : List ℚ) : Option ℚ :=
  if vs = [] then none else some (vs.sum / (vs.length : ℚ))

/-- The `pages` column over the whole table (`pages` is non-nullable). -/
def pagesValues (s : List Book) : List ℚ := s.map (fun b => (b.pages : ℚ))

/-- The non-`NULL` `rating` values over the whole table. -/
def ratingValues (s : List Book) : List Int := s.filterMap Book.rating

/-- `Book.objects.filter(rating__isnull=False).values('rating')
.annotate(count=Count('id')).order_by('rating')`: one `(rating, count)`
row per distinct non-null rating, ascending by rating. -/
def ratingDist (s : List Book) : List (Int × Nat) :=
  (List.insertionSort (α := Int) (· ≤ ·) (ratingValues s).dedup).map
    (fun v => (v, (ratingValues s).count v))

/-- `Book.objects.values('status').annotate(count=Count('id'))`: one
`(status, count)` row per distinct status (the query requests no
ordering; the embedding uses distinct-value order). -/
def statusDist (s : List Book) : List (String × Nat) :=
  (s.map Book.status).dedup.map (fun v => (v, (s.map Book.status).count v))

/-- The rendering context the `stats` view builds. -/
structure StatsContext where
  max_pages : Option Book
  min_pages : Option Book
  avg_pages : ℚ
  avg_rating : ℚ
  status_labels : List String
  status_counts : List Nat
  rating_labels : List String
  rating_counts : List Nat
deriving DecidableEq, Repr

/-- The `stats` view body (`views.py` lines 70–95): first row of the
pages-descending and pages-ascending orders, the two averages with the
`or 0` fallback then `round(_, 2)`, and the label/count sequences of
the two distributions. -/
def stats (s : List Book) : StatsContext where
  max_pages :=
    (@List.insertionSort Book (fun a b => b.pages ≤ a.pages)
      (fun a b => inferInstanceAs (Decidable (b.pages ≤ a.pages))) s).head?
  min_pages :=
    (@List.insertionSort Book (fun a b => a.pages ≤ b.pages)
      (fun a b => inferInstanceAs (Decidable (a.pages ≤ b.pages))) s).head?
  avg_pages := round2 ((djangoAvg (pagesValues s)).getD 0)
  avg_rating := round2 ((djangoAvg ((ratingValues s).map (fun r => (Int.cast r : ℚ)))).getD 0)
  status_labels := (statusDist s).map (fun p => p.1)
  status_counts := (statusDist s).map (fun p => p.2)
  rating_labels := (ratingDist s).map (fun p => toString p.1)
  rating_counts := (ratingDist s).map (fun p => p.2)

/-! ## Routing and access control (`bookapp/urls.py`, `views.py`)

The mixin declarations (`LoginRequiredMixin` on `BookCreate` and
`BookDetail`; `PermissionRequiredMixin` with `bookapp.change_book` /
`bookapp.delete_book` on `BookUpdate` / `BookDelete`) are in
`views.py`; the mixins' response behaviour is framework code.
Modelled from the spec: anonymous users hitting gated routes receive a
redirect-to-login (302); authenticated-but-unpermissioned users on
permission-gated routes receive 403. -/

/-- A requesting user: authentication state and granted permission
codenames. -/
structure User where
  is_authenticated : Bool
  perms : List String
deriving DecidableEq, Repr

/-- `user.has_perm(p)`: anonymous users hold no permissions. -/
def hasPerm (u : User) (p : String) : Bool :=
  u.is_authenticated && u.perms.contains p

/-- `LoginRequiredMixin`: 200 when authenticated, else redirect to
login (302). Modelled from the spec (framework behaviour). -/
def loginGate (u : User) : Nat :=
  if u.is_authenticated then 200 else 302

/-- `PermissionRequiredMixin` with `permission_required = p`: 200 with
the permission; otherwise 403 when authenticated, 302 (redirect to
login) when anonymous. Modelled from the spec (framework behaviour). -/
def permGate (p : String) (u : User) : Nat :=
  if hasPerm u p then 200
  else if u.is_authenticated then 403
  else 302

/-- The routes of `urlpatterns` whose gating the claims exercise. -/
inductive Route
  | form | list | detail | edit | delete | stats
deriving DecidableEq, Repr

/-- GET-request dispatch per `urls.py` and the mixins declared in
`views.py`: `/form` and `/<id>/detail` are login-gated, `/<id>/edit`
requires `bookapp.change_book`, `/<id>/delete` requires
`bookapp.delete_book`, `/list` and `/stats` are open. -/
def dispatch : Route → User → Nat
  | .form, u => loginGate u
  | .list, _ => 200
  | .detail, u => loginGate u
  | .edit, u => permGate "bookapp.change_book" u
  | .delete, u => permGate "bookapp.delete_book" u
  | .stats, _ => 200

/-! ## Helper lemmas on the error mapping -/

theorem lookup_map_addMsg (errs : List (String × List String)) (field msg f : String)
    (h : f ≠ field) :
    (errs.map (fun p => if p.1 = field then (p.1, p.2 ++ [msg]) else p)).lookup f
      = errs.lookup f := by
  induction errs with
  | nil => rfl
  | cons p t ih =>
    obtain ⟨k, v⟩ := p
    simp only [List.map_cons]
    by_cases hk : k = field
    · have he : (if (k, v).1 = field then ((k, v).1, (k, v).2 ++ [msg]) else (k, v))
          = (k, v ++ [msg]) := by simp [hk]
      have hfk : (f == k) = false := by simp [hk ▸ h]
      rw [he]
      simp only [List.lookup, hfk, ih]
    · have he : (if (k, v).1 = field then ((k, v).1, (k, v).2 ++ [msg]) else (k, v))
          = (k, v) := by simp [hk]
      rw [he]
      cases hfk : f == k <;> simp only [List.lookup, hfk, ih]

theorem lookup_append_single_ne (errs : List (String × List String))
    (field msg f : String) (h : f ≠ field) :
    (errs ++ [(field, [msg])]).lookup f = errs.lookup f := by
  induction errs with
  | nil =>
    have hfk : (f == field) = false := by simp [h]
    simp [List.lookup, hfk]
  | cons p t ih =>
    obtain ⟨k, v⟩ := p
    simp only [List.cons_append]
    cases hfk : f == k <;> simp only [List.lookup, hfk, ih]

theorem lookup_addError_ne (errs : List (String × List String))
    (field msg f : String) (h : f ≠ field) :
    (addError errs field msg).lookup f = errs.lookup f := by
  unfold addError
  by_cases hany : errs.any (fun p => p.1 = field)
  · simp only [hany, if_true]
    exact lookup_map_addMsg errs field msg f h
  · simp only [hany, if_false]
    exact lookup_append_single_ne errs field msg f h

theorem any_key_eq_false_of_lookup_none (errs : List (String × List String))
    (f : String) (h : errs.lookup f = none) :
    errs.any (fun p => p.1 = f) = false := by
  induction errs with
  | nil => rfl
  | cons p t ih =>
    obtain ⟨k, v⟩ := p
    by_cases hfk : f = k
    · subst hfk
      have : (f == f) = true := by simp
      simp only [List.lookup, this] at h
      cases h
    · have hfk' : (f == k) = false := by simp [hfk]
      simp only [List.lookup, hfk'] at h
      simp [List.any_cons, Ne.symm hfk, ih h]

theorem lookup_append_single_self (errs : List (String × List String))
    (field msg : String) (h : errs.lookup field = none) :
    (errs ++ [(field, [msg])]).lookup field = some [msg] := by
  induction errs with
  | nil => simp [List.lookup]
  | cons p t ih =>
    obtain ⟨k, v⟩ := p
    by_cases hfk : field = k
    · subst hfk
      have : (field == field) = true := by simp
      simp only [List.lookup, this] at h
      cases h
    · have hfk' : (field == k) = false := by simp [hfk]
      simp only [List.cons_append, List.lookup, hfk'] at h ⊢
      exact ih h

theorem lookup_addError_self (errs : List (String × List String))
    (field msg : String) (h : errs.lookup field = none) :
    (addError errs field msg).lookup field = some [msg] := by
  unfold addError
  rw [any_key_eq_false_of_lookup_none errs field h]
  simp only [Bool.false_eq_true, if_false]
  exact lookup_append_single_self errs field msg h

theorem fieldErrors_lookup_title (d : BookFormData) :
    (fieldErrors d).lookup "title"
      = if titleErrors d.title = [] then none else some (titleErrors d.title) := by
  unfold fieldErrors readDateErrors
  by_cases h1 : titleErrors d.title = [] <;>
    by_cases h2 : pagesErrors d.pages = [] <;>
      by_cases h3 : ratingErrors d.rating = [] <;>
        by_cases h4 : statusErrors d.status = [] <;>
          by_cases h5 : pubDateErrors d.published_date = [] <;>
            simp [List.filter, List.lookup, h1, h2, h3, h4, h5]

theorem fieldErrors_lookup_pages (d : BookFormData) :
    (fieldErrors d).lookup "pages"
      = if pagesErrors d.pages = [] then none else some (pagesErrors d.pages) := by
  unfold fieldErrors readDateErrors
  by_cases h1 : titleErrors d.title = [] <;>
    by_cases h2 : pagesErrors d.pages = [] <;>
      by_cases h3 : ratingErrors d.rating = [] <;>
        by_cases h4 : statusErrors d.status = [] <;>
          by_cases h5 : pubDateErrors d.published_date = [] <;>
            simp [List.filter, List.lookup, h1, h2, h3, h4, h5]

theorem fieldErrors_lookup_rating (d : BookFormData) :
    (fieldErrors d).lookup "rating"
      = if ratingErrors d.rating = [] then none else some (ratingErrors d.rating) := by
  unfold fieldErrors readDateErrors
  by_cases h1 : titleErrors d.title = [] <;>
    by_cases h2 : pagesErrors d.pages = [] <;>
      by_cases h3 : ratingErrors d.rating = [] <;>
        by_cases h4 : statusErrors d.status = [] <;>
          by_cases h5 : pubDateErrors d.published_date = [] <;>
            simp [List.filter, List.lookup, h1, h2, h3, h4, h5]

theorem fieldErrors_lookup_status (d : BookFormData) :
    (fieldErrors d).lookup "status"
      = if statusErrors d.status = [] then none else some (statusErrors d.status) := by
  unfold fieldErrors readDateErrors
  by_cases h1 : titleErrors d.title = [] <;>
    by_cases h2 : pagesErrors d.pages = [] <;>
      by_cases h3 : ratingErrors d.rating = [] <;>
        by_cases h4 : statusErrors d.status = [] <;>
          by_cases h5 : pubDateErrors d.published_date = [] <;>
            simp [List.filter, List.lookup, h1, h2, h3, h4, h5]

theorem fieldErrors_lookup_pubDate (d : BookFormData) :
    (fieldErrors d).lookup "published_date"
      = if pubDateErrors d.published_date = [] then none
        else some (pubDateErrors d.published_date) := by
  unfold fieldErrors readDateErrors
  by_cases h1 : titleErrors d.title = [] <;>
    by_cases h2 : pagesErrors d.pages = [] <;>
      by_cases h3 : ratingErrors d.rating = [] <;>
        by_cases h4 : statusErrors d.status = [] <;>
          by_cases h5 : pubDateErrors d.published_date = [] <;>
            simp [List.filter, List.lookup, h1, h2, h3, h4, h5]

theorem fieldErrors_lookup_readDate (d : BookFormData) :
    (fieldErrors d).lookup "read_date" = none := by
  unfold fieldErrors readDateErrors
  by_cases h1 : titleErrors d.title = [] <;>
    by_cases h2 : pagesErrors d.pages = [] <;>
      by_cases h3 : ratingErrors d.rating = [] <;>
        by_cases h4 : statusErrors d.status = [] <;>
          by_cases h5 : pubDateErrors d.published_date = [] <;>
            simp [List.filter, List.lookup, h1, h2, h3, h4, h5]

theorem formErrors_lookup_ne_readDate (d : BookFormData) (f : String)
    (h : f ≠ "read_date") :
    (formErrors d).lookup f = (fieldErrors d).lookup f := by
  unfold formErrors formClean
  cases (cleanedData d).read_date with
  | none => rfl
  | some r =>
    cases (cleanedData d).published_date with
    | none => rfl
    | some p =>
      by_cases hrp : r < p
      · simp only [hrp, if_true]
        exact lookup_addError_ne (fieldErrors d) "read_date" crossMsg f h
      · simp only [hrp, if_false]

theorem formErrors_lookup_readDate (d : BookFormData) :
    (formErrors d).lookup "read_date"
      = match d.read_date, d.published_date with
        | some r, some p => if r < p then some [crossMsg] else none
        | _, _ => none := by
  unfold formErrors formClean cleanedData
  cases hrd : d.read_date with
  | none => simp [readDateErrors, fieldErrors_lookup_readDate d]
  | some r =>
    cases hpd : d.published_date with
    | none => simp [readDateErrors, pubDateErrors, fieldErrors_lookup_readDate d]
    | some p =>
      by_cases hrp : r < p
      · simp only [readDateErrors, pubDateErrors, if_true, hrp]
        simp [lookup_addError_self (fieldErrors d) "read_date" crossMsg
          (fieldErrors_lookup_readDate d), hrp]
      · simp [readDateErrors, pubDateErrors, hrp, fieldErrors_lookup_readDate d]

/-! ## Claim theorems: form validation -/

/-- C2: form validation attaches exactly the message "The read date
must be after the published date" to the `read_date` field if and only
if both `read_date` and `published_date` are present and
`read_date < published_date`; equality and an absent `read_date` pass. -/
theorem bookform_readDate_cross_rule (d : BookFormData) :
    (formErrors d).lookup "read_date"
      = match d.read_date, d.published_date with
        | some r, some p =>
            if r < p then some ["The read date must be after the published date"]
            else none
        | _, _ => none :=
  formErrors_lookup_readDate d

/-- C5: title validation yields "The title is mandatory" on an empty
title, "The title must be less than 50 characters long" on a title of
51 or more characters, and no title error at up to 50 characters. -/
theorem bookform_title_rules (d : BookFormData) :
    (formErrors d).lookup "title"
      = if d.title.length = 0 then some ["The title is mandatory"]
        else if 50 < d.title.length then
          some ["The title must be less than 50 characters long"]
        else none := by
  rw [formErrors_lookup_ne_readDate d "title" (by simp), fieldErrors_lookup_title d]
  unfold titleErrors
  by_cases h1 : d.title.length = 0 <;> by_cases h2 : 50 < d.title.length <;>
    simp [h1, h2]

/-- C8: for every candidate record the validation pass produces one
structured field → messages mapping in which every failing field
appears with its own rule's messages, independently of the other
fields' failures; in particular the cross-field failure lands on
`read_date` without suppressing any field-level report. -/
theorem bookform_reports_all_failures (d : BookFormData) :
    ((formErrors d).lookup "title"
        = if titleErrors d.title = [] then none else some (titleErrors d.title))
    ∧ ((formErrors d).lookup "pages"
        = if pagesErrors d.pages = [] then none else some (pagesErrors d.pages))
    ∧ ((formErrors d).lookup "rating"
        = if ratingErrors d.rating = [] then none else some (ratingErrors d.rating))
    ∧ ((formErrors d).lookup "status"
        = if statusErrors d.status = [] then none else some (statusErrors d.status))
    ∧ ((formErrors d).lookup "published_date"
        = if pubDateErrors d.published_date = [] then none
          else some (pubDateErrors d.published_date))
    ∧ ((formErrors d).lookup "read_date"
        = match d.read_date, d.published_date with
          | some r, some p => if r < p then some [crossMsg] else none
          | _, _ => none) := by
  refine ⟨?_, ?_, ?_, ?_, ?_, formErrors_lookup_readDate d⟩
  · exact (formErrors_lookup_ne_readDate d "title" (by simp)).trans
      (fieldErrors_lookup_title d)
  · exact (formErrors_lookup_ne_readDate d "pages" (by simp)).trans
      (fieldErrors_lookup_pages d)
  · exact (formErrors_lookup_ne_readDate d "rating" (by simp)).trans
      (fieldErrors_lookup_rating d)
  · exact (formErrors_lookup_ne_readDate d "status" (by simp)).trans
      (fieldErrors_lookup_status d)
  · exact (formErrors_lookup_ne_readDate d "published_date" (by simp)).trans
      (fieldErrors_lookup_pubDate d)

/-! ## Claim theorems: list query builder -/

theorem book_list_books_eq (s : List Book) (req : ListRequest) :
    (book_list s req).books
      = applyOrder
          (if req.order_by.getD "title" ∈ VALID_ORDER_FIELDS
            then req.order_by.getD "title" else "title")
          (applyTitleFilter (req.title.getD "") s) := rfl

theorem book_list_order_by_eq (s : List Book) (req : ListRequest) :
    (book_list s req).order_by
      = if req.order_by.getD "title" ∈ VALID_ORDER_FIELDS
          then req.order_by.getD "title" else "title" := rfl

theorem applyOrder_perm (key : String) (l : List Book) :
    (applyOrder key l).Perm l :=
  @List.perm_insertionSort Book (fun a b => keyLe key a b = true)
    (fun a b => instDecidableEqBool (keyLe key a b) true) l

/-- C3: an `order_by` key outside the 10-value whitelist makes
`book_list` order by ascending `title`, and whatever the input, the key
actually applied to the query is a member of the whitelist. -/
theorem book_list_order_whitelist (s : List Book) (req : ListRequest) :
    (∃ k, k ∈ VALID_ORDER_FIELDS ∧
        (book_list s req).books
          = applyOrder k (applyTitleFilter (req.title.getD "") s))
    ∧ (req.order_by.getD "title" ∉ VALID_ORDER_FIELDS →
        (book_list s req).books
          = applyOrder "title" (applyTitleFilter (req.title.getD "") s)) := by
  constructor
  · by_cases hm : req.order_by.getD "title" ∈ VALID_ORDER_FIELDS
    · exact ⟨req.order_by.getD "title", hm, by rw [book_list_books_eq]; simp [hm]⟩
    · refine ⟨"title", by simp [VALID_ORDER_FIELDS], ?_⟩
      rw [book_list_books_eq]; simp [hm]
  · intro hm
    rw [book_list_books_eq]; simp [hm]

theorem book_list_order_whitelist_witness :
    (book_list [] ⟨none, some "bogus"⟩).books
      = applyOrder "title" (applyTitleFilter "" []) :=
  (book_list_order_whitelist [] ⟨none, some "bogus"⟩).2 (by decide)

/-- C4: a record is in the list result exactly when it is in the store
and, whenever a non-empty filter is given, its title contains the
filter as a case-insensitive substring; an absent (empty) filter keeps
every record. -/
theorem book_list_filter_membership (s : List Book) (req : ListRequest) (b : Book) :
    b ∈ (book_list s req).books ↔
      b ∈ s ∧ (req.title.getD "" = ""
        ∨ icontains b.title (req.title.getD "") = true) := by
  rw [book_list_books_eq]
  rw [List.Perm.mem_iff (applyOrder_perm _ _)]
  unfold applyTitleFilter
  by_cases hf : req.title.getD "" = ""
  · simp [hf]
  · simp [hf, List.mem_filter]

/-- C9: the `order_by` value `book_list` echoes into its rendered
context is always a whitelist member, and an invalid raw parameter is
echoed as the sanitized fallback `"title"`. -/
theorem book_list_context_order_whitelisted (s : List Book) (req : ListRequest) :
    (book_list s req).order_by ∈ VALID_ORDER_FIELDS
    ∧ (req.order_by.getD "title" ∉ VALID_ORDER_FIELDS →
        (book_list s req).order_by = "title") := by
  constructor
  · rw [book_list_order_by_eq]
    by_cases hm : req.order_by.getD "title" ∈ VALID_ORDER_FIELDS
    · rw [if_pos hm]; exact hm
    · rw [if_neg hm]; decide
  · intro hm
    rw [book_list_order_by_eq]; simp [hm]

theorem book_list_context_order_whitelisted_witness :
    (book_list [] ⟨some "x", some "id"⟩).order_by = "title"
    ∧ (book_list [] ⟨some "x", some "id"⟩).order_by ∈ VALID_ORDER_FIELDS :=
  ⟨(book_list_context_order_whitelisted [] ⟨some "x", some "id"⟩).2 (by decide),
   (book_list_context_order_whitelisted [] ⟨some "x", some "id"⟩).1⟩

/-! ## Claim theorems: routing and access control -/

/-- C1: anonymous users get 302 on every gated route; an authenticated
user without permissions gets 200 on `/form` (creation is only
login-gated) but 403 on `/<id>/edit` and `/<id>/delete`; a user holding
the change and delete permissions gets 200 on every gated route. -/
theorem gated_route_statuses (u : User) :
    (u.is_authenticated = false →
      dispatch .form u = 302 ∧ dispatch .detail u = 302
        ∧ dispatch .edit u = 302 ∧ dispatch .delete u = 302)
    ∧ (u.is_authenticated = true → dispatch .form u = 200)
    ∧ (u.is_authenticated = true → hasPerm u "bookapp.change_book" = false →
        dispatch .edit u = 403)
    ∧ (u.is_authenticated = true → hasPerm u "bookapp.delete_book" = false →
        dispatch .delete u = 403)
    ∧ (hasPerm u "bookapp.change_book" = true →
        hasPerm u "bookapp.delete_book" = true →
        dispatch .form u = 200 ∧ dispatch .detail u = 200
          ∧ dispatch .edit u = 200 ∧ dispatch .delete u = 200) := by
  refine ⟨?_, ?_, ?_, ?_, ?_⟩
  · intro h
    simp [dispatch, loginGate, permGate, hasPerm, h]
  · intro h
    simp [dispatch, loginGate, h]
  · intro h hp
    simp [dispatch, permGate, hp, h]
  · intro h hp
    simp [dispatch, permGate, hp, h]
  · intro hc hd
    have ha : u.is_authenticated = true := by
      simp only [hasPerm, Bool.and_eq_true] at hc
      exact hc.1
    simp [dispatch, loginGate, permGate, hc, hd, ha]

theorem gated_route_statuses_witness :
    dispatch .form ⟨false, []⟩ = 302
    ∧ dispatch .form ⟨true, []⟩ = 200
    ∧ dispatch .edit ⟨true, []⟩ = 403
    ∧ dispatch .delete ⟨true, []⟩ = 403
    ∧ dispatch .edit ⟨true, ["bookapp.change_book", "bookapp.delete_book"]⟩ = 200 :=
  ⟨((gated_route_statuses ⟨false, []⟩).1 rfl).1,
   (gated_route_statuses ⟨true, []⟩).2.1 rfl,
   (gated_route_statuses ⟨true, []⟩).2.2.1 rfl (by decide),
   (gated_route_statuses ⟨true, []⟩).2.2.2.1 rfl (by decide),
   ((gated_route_statuses
      ⟨true, ["bookapp.change_book", "bookapp.delete_book"]⟩).2.2.2.2
      (by decide) (by decide)).2.2.1⟩

/-! ## Claim theorems: statistics aggregation -/

theorem round2_zero : round2 0 = 0 := by
  simp [round2, roundHalfEven]

/-- C6: the statistics context carries the mean pages and mean rating
rounded to two decimals; with zero records the mean pages is 0, with no
ratings the mean rating is 0, and both are computed totally. -/
theorem stats_means_rounded (s : List Book) :
    (stats s).avg_pages
      = (if s = [] then 0 else round2 ((pagesValues s).sum / (s.length : ℚ)))
    ∧ (stats s).avg_rating
      = (if ratingValues s = [] then 0
         else round2 (((ratingValues s).map (fun r => (Int.cast r : ℚ))).sum
           / ((ratingValues s).length : ℚ))) := by
  constructor
  · show round2 ((djangoAvg (pagesValues s)).getD 0) = _
    unfold djangoAvg
    by_cases hs : s = []
    · subst hs
      simp [pagesValues, round2_zero]
    · have hp : pagesValues s ≠ [] := by simp [pagesValues, hs]
      rw [if_neg hp, if_neg hs]
      simp [pagesValues]
  · show round2 ((djangoAvg ((ratingValues s).map (fun r => (Int.cast r : ℚ)))).getD 0) = _
    unfold djangoAvg
    by_cases hr : ratingValues s = []
    · simp [hr, round2_zero]
    · have hm : (ratingValues s).map (fun r => (Int.cast r : ℚ)) ≠ [] := by
        cases hx : ratingValues s with
        | nil => exact absurd hx hr
        | cons a t => simp [hx]
      rw [if_neg hm, if_neg hr, Option.getD_some, List.length_map]

theorem count_ratingValues (s : List Book) (v : Int) :
    (ratingValues s).count v = (s.filter (fun b => b.rating = some v)).length := by
  induction s with
  | nil => rfl
  | cons b t ih =>
    unfold ratingValues at ih ⊢
    cases hb : b.rating with
    | none => simp [List.filterMap_cons, hb, List.filter_cons, ih]
    | some r =>
      by_cases hr : r = v
      · subst hr
        simp [List.filterMap_cons, hb, List.filter_cons, List.count_cons, ih]
      · simp [List.filterMap_cons, hb, List.filter_cons, List.count_cons, ih, hr]

/-- C7: the per-rating distribution feeding the stats charts has one
entry per distinct non-null rating, each counting exactly the records
holding that rating, with entries ordered by rating value ascending;
the stats context's label/count sequences are its projections. -/
theorem stats_rating_distribution (s : List Book) :
    List.Sorted (· ≤ ·) ((ratingDist s).map Prod.fst)
    ∧ (∀ v c, (v, c) ∈ ratingDist s ↔
        (∃ b ∈ s, b.rating = some v)
          ∧ c = (s.filter (fun b => b.rating = some v)).length)
    ∧ (stats s).rating_labels = (ratingDist s).map (fun p => toString p.1)
    ∧ (stats s).rating_counts = (ratingDist s).map (fun p => p.2) := by
  refine ⟨?_, ?_, rfl, rfl⟩
  · unfold ratingDist
    rw [List.map_map]
    have hfst : (Prod.fst ∘ fun v => (v, (ratingValues s).count v)) = id := rfl
    rw [hfst, List.map_id]
    exact List.sorted_insertionSort (· ≤ ·) _
  · intro v c
    unfold ratingDist
    have hmem : ∀ x : Int,
        x ∈ List.insertionSort (· ≤ ·) (ratingValues s).dedup
          ↔ x ∈ ratingValues s := by
      intro x
      rw [List.Perm.mem_iff (List.perm_insertionSort _ _), List.mem_dedup]
    rw [List.mem_map]
    constructor
    · rintro ⟨a, ha, heq⟩
      simp only [Prod.mk.injEq] at heq
      obtain ⟨rfl, rfl⟩ := heq
      refine ⟨?_, count_ratingValues s a⟩
      have hv := (hmem a).1 ha
      unfold ratingValues at hv
      simpa [List.mem_filterMap] using hv
    · rintro ⟨⟨b, hb, hrb⟩, rfl⟩
      refine ⟨v, (hmem v).2 ?_, ?_⟩
      · unfold ratingValues
        exact List.mem_filterMap.2 ⟨b, hb, hrb⟩
      · simp [count_ratingValues s v]

/-- C10: on an empty store the stats view renders `None` for both the
max-pages and min-pages record and empty status and rating label/count
sequences; the aggregation is total there. -/
theorem stats_empty_store :
    (stats ([] : List Book)).max_pages = none
    ∧ (stats ([] : List Book)).min_pages = none
    ∧ (stats ([] : List Book)).status_labels = []
    ∧ (stats ([] : List Book)).status_counts = []
    ∧ (stats ([] : List Book)).rating_labels = []
    ∧ (stats ([] : List Book)).rating_counts = [] :=
  ⟨rfl, rfl, rfl, rfl, rfl, rfl⟩

end BookApp
